import Mathlib

/-!
Verification of the AeroOps Radar dashboard core (`src/app.py`).

The embedding models numeric feed values as rationals and keeps the pandas
cell model explicit: a raw cell is null, a number, or a string (`JVal`).
Randomness (`random.uniform`, `random.randint`) is modelled as an input
stream of draws bundled with the bounds the Python library guarantees.
HTTP interaction is modelled by a response datatype: the network layer
either fails outright (requests raises) or yields a status with a body
that may be malformed, lack the expected key, or carry the decoded JSON.
-/

/-- A pandas cell as it arrives from the JSON feed: null, numeric, or string. -/
inductive JVal where
  | jnull
  | jnum (q : ℚ)
  | jstr (s : String)
deriving DecidableEq, Repr

namespace JVal

/-- Whether a cell holds a string (the case where a pandas numeric
comparison on the column raises `TypeError`). -/
def isStr : JVal → Bool
  | .jstr _ => true
  | _ => false

/-- Pandas elementwise `> c` on a numeric-or-null column: `NaN`/null compares
false; a numeric cell compares exactly.  Undefined (never reached) on strings,
which are screened out before this is applied. -/
def jgt (v : JVal) (c : ℚ) : Bool :=
  match v with
  | .jnull => false
  | .jnum q => decide (q > c)
  | .jstr _ => false

end JVal

/-- One raw record of the OpenSky `states` array, restricted to the columns
`app.py` reads (`callsign`, `longitude`, `latitude`, `baro_altitude`,
`velocity`, `origin_country`).  `latitude`/`longitude` are null-or-number
(`dropna` is the only operation applied to them). -/
structure RawState where
  callsign : JVal
  origin_country : JVal
  longitude : Option ℚ
  latitude : Option ℚ
  baro_altitude : JVal
  velocity : JVal
deriving DecidableEq, Repr

/-- A row of the dataframe `get_live_flights` returns (live or simulated). -/
structure Row where
  callsign : JVal
  origin_country : JVal
  longitude : Option ℚ
  latitude : Option ℚ
  baro_altitude : JVal
  velocity : JVal
deriving DecidableEq, Repr

/-- Python `str.strip()`: drop leading and trailing whitespace. -/
def pyStrip (s : String) : String :=
  String.mk (((s.data.dropWhile Char.isWhitespace).reverse.dropWhile
    Char.isWhitespace).reverse)

/-- `df['callsign'].str.strip()`: strings are stripped, non-strings become NaN
(the `.str` accessor yields NaN off strings). -/
def stripCallsign : JVal → JVal
  | .jstr s => .jstr (pyStrip s)
  | _ => .jnull

/-- The cleaning step of `get_live_flights` applied to one record
(line 80 of `app.py`). -/
def toRow (r : RawState) : Row :=
  { callsign := stripCallsign r.callsign
    origin_country := r.origin_country
    longitude := r.longitude
    latitude := r.latitude
    baro_altitude := r.baro_altitude
    velocity := r.velocity }

/-- The filter of line 82: `(df['baro_altitude'] > 2000) & (df['velocity'] > 50)`. -/
def passaFiltro (r : Row) : Bool :=
  r.baro_altitude.jgt 2000 && r.velocity.jgt 50

/-- Lines 80-83 of `app.py`: strip callsigns, filter flying aircraft, drop
records with null position.  If any `baro_altitude` or `velocity` cell is a
string the whole-column comparison raises `TypeError` (modelled as `.error`),
which the surrounding `try` swallows. -/
def limpaFiltra (sts : List RawState) : Except Unit (List Row) :=
  let rows := sts.map toRow
  if rows.any (fun r => r.baro_altitude.isStr || r.velocity.isStr) then
    .error ()
  else
    .ok ((rows.filter passaFiltro).filter
      (fun r => r.latitude.isSome && r.longitude.isSome))

/-- One tuple of pseudo-random draws for a synthetic record, bundled with the
ranges `random.uniform` / `random.randint` guarantee (lines 96-105). -/
structure FakeDraw where
  latOff : ℚ
  lonOff : ℚ
  flightNum : ℕ
  vel : ℚ
  alt : ℚ
  track : ℚ
  latOff_mem : -5 ≤ latOff ∧ latOff ≤ 5
  lonOff_mem : -5 ≤ lonOff ∧ lonOff ≤ 5
  flightNum_mem : 1000 ≤ flightNum ∧ flightNum ≤ 9999
  vel_mem : 200 ≤ vel ∧ vel ≤ 260
  alt_mem : 8000 ≤ alt ∧ alt ≤ 11000
  track_mem : 0 ≤ track ∧ track ≤ 360

/-- Lines 93-107: the simulated fallback generates exactly 20 records with
randomized positions around São Paulo and `GLO####` callsigns. -/
def dados_fake (draws : ℕ → FakeDraw) : List Row :=
  (List.range 20).map fun i =>
    let d := draws i
    { callsign := .jstr ("GLO" ++ toString d.flightNum)
      origin_country := .jstr "Brazil"
      longitude := some (-233/5 + d.lonOff)
      latitude := some (-47/2 + d.latOff)
      baro_altitude := .jnum d.alt
      velocity := .jnum d.vel }

/-- Decoded body of the OpenSky response: `r.json()` may raise (`malformed`),
the `states` key may be absent (`data['states']` raises `KeyError`), or the
key holds null or an array. -/
inductive JsonBody where
  | malformed
  | noStatesKey
  | states (s : Option (List RawState))
deriving DecidableEq

/-- Outcome of `requests.get` on the OpenSky endpoint: transport failure /
timeout (the call raises), or an HTTP status with a body. -/
inductive FetchResp where
  | netFail
  | httpResp (status : ℕ) (body : JsonBody)
deriving DecidableEq

/-- The body of the `try` block of `get_live_flights` (lines 70-87): `some
rows` when the function returns the live dataframe, `none` when an exception
is swallowed or control falls through to the fallback. -/
def tryLive (r : FetchResp) : Option (List Row) :=
  match r with
  | .netFail => none
  | .httpResp status body =>
    if status = 200 then
      match body with
      | .malformed => none
      | .noStatesKey => none
      | .states none => none
      | .states (some sts) =>
        match limpaFiltra sts with
        | .error _ => none
        | .ok rows => if rows.isEmpty then none else some rows
    else none

/-- `get_live_flights` (lines 60-107): try the live feed; on any swallowed
exception or fall-through, return the simulated data with flag `False`. -/
def get_live_flights (r : FetchResp) (draws : ℕ → FakeDraw) :
    List Row × Bool :=
  match tryLive r with
  | some rows => (rows, true)
  | none => (dados_fake draws, false)

/-- The `current` object of the Open-Meteo response (line 114). -/
structure Clima where
  temperature_2m : ℚ
  precipitation : ℚ
  wind_speed_10m : ℚ
deriving DecidableEq, Repr

/-- Decoded body of the weather response: unparseable, missing the `current`
key, or carrying a `current` object. -/
inductive WBody where
  | malformed
  | noCurrent
  | current (c : Clima)
deriving DecidableEq

/-- Outcome of `requests.get` on the Open-Meteo endpoint. -/
inductive WResp where
  | fail
  | ok (status : ℕ) (body : WBody)
deriving DecidableEq

/-- The hard-coded fallback weather of line 116:
`{'temperature_2m': 25.0, 'precipitation': 0.0, 'wind_speed_10m': 10.0}`. -/
def clima_fallback : Clima := ⟨25, 0, 10⟩

/-- `get_weather` (lines 109-116): return `r.json()['current']`; any raised
exception (transport, parse, missing key) yields the fallback snapshot.
The HTTP status code is never inspected. -/
def get_weather (r : WResp) : Clima :=
  match r with
  | .fail => clima_fallback
  | .ok _ body =>
    match body with
    | .malformed => clima_fallback
    | .noCurrent => clima_fallback
    | .current c => c

/-- Python `int()` on a rational: truncation toward zero. -/
def pyInt (q : ℚ) : ℤ := Int.tdiv q.num q.den

/-- Line 194: `vel_kmh = dado['velocity'] * 3.6`. -/
def vel_kmh (velocity : ℚ) : ℚ := velocity * (36/10)

/-- Line 195: `altitude_ft = dado['baro_altitude'] * 3.28084`. -/
def altitude_ft (baro : ℚ) : ℚ := baro * (328084/100000)

/-- Lines 198-202: ETA in minutes, `999` when the speed is not positive. -/
def minutos_restantes (dist_km v_kmh : ℚ) : ℤ :=
  if v_kmh > 0 then pyInt (dist_km / v_kmh * 60) else 999

/-- A triggered risk factor: the kind together with the numeric value the
formatted message embeds (lines 212, 218, 223). -/
inductive Fator where
  | ventoCruzado (v : ℚ)
  | chuvaNaPista (c : ℚ)
  | velocidadeCruzeiroBaixa
deriving DecidableEq, Repr

/-- The risk algorithm of lines 204-227: sequential accumulation over the four
rules, each appending its factor when triggered (the ETA rule scores only). -/
def risco_score (clima : Clima) (v_kmh alt_ft : ℚ) (minutos : ℤ) :
    ℤ × List Fator :=
  let st0 : ℤ × List Fator := (0, [])
  let vento := clima.wind_speed_10m
  let st1 := if vento > 25 then (st0.1 + 30, st0.2 ++ [Fator.ventoCruzado vento]) else st0
  let chuva := clima.precipitation
  let st2 := if chuva > 1/2 then (st1.1 + 40, st1.2 ++ [Fator.chuvaNaPista chuva]) else st1
  let st3 := if v_kmh < 600 ∧ alt_ft > 20000 then
      (st2.1 + 20, st2.2 ++ [Fator.velocidadeCruzeiroBaixa]) else st2
  let st4 := if minutos > 120 then (st3.1 + 10, st3.2) else st3
  st4

/-- The presentation thresholds of lines 245-253: `CRÍTICO` above 50,
`ATENÇÃO` above 20, `NOMINAL` otherwise. -/
def statusRisco (score : ℤ) : String :=
  if score > 50 then "CRÍTICO" else if score > 20 then "ATENÇÃO" else "NOMINAL"

/-- A fixed draw stream used by concrete evaluations. -/
def draws0 : ℕ → FakeDraw := fun _ =>
  { latOff := 0, lonOff := 0, flightNum := 1000, vel := 200, alt := 8000,
    track := 0,
    latOff_mem := by norm_num, lonOff_mem := by norm_num,
    flightNum_mem := by norm_num, vel_mem := by norm_num,
    alt_mem := by norm_num, track_mem := by norm_num }

/-- A live record whose callsign is all blanks: it strips to the empty
string, yet passes every filter of `get_live_flights`. -/
def reg_sem_id : RawState :=
  { callsign := .jstr "   ", origin_country := .jstr "Brazil",
    longitude := some (-46), latitude := some (-23),
    baro_altitude := .jnum 10000, velocity := .jnum 250 }

/-- The first synthetic row produced from the fixed draw stream `draws0`. -/
def linha0 : Row :=
  { callsign := .jstr ("GLO" ++ toString (1000 : ℕ))
    origin_country := .jstr "Brazil"
    longitude := some (-233/5 + 0)
    latitude := some (-47/2 + 0)
    baro_altitude := .jnum 8000
    velocity := .jnum 200 }

/-- A live record whose `velocity` arrives as a string: the pandas column
comparison raises and the whole live parse is abandoned. -/
def reg_vel_texto : RawState :=
  { callsign := .jstr "TAM123", origin_country := .jstr "Brazil",
    longitude := some (-46), latitude := some (-23),
    baro_altitude := .jnum 10000, velocity := .jstr "N/A" }

/-- A live record whose `velocity` arrives as null: the comparison treats it
as NaN and the record simply fails the filter. -/
def reg_vel_nula : RawState :=
  { callsign := .jstr "AZU4521", origin_country := .jstr "Brazil",
    longitude := some (-46), latitude := some (-23),
    baro_altitude := .jnum 10000, velocity := .jnull }

/-! ## Theorems -/

/-- C1: the risk score is the sum of exactly the triggered rule points —
+30 when wind > 25, +40 when precipitation > 0.5, +20 when speed < 600 and
altitude > 20000 ft, +10 when ETA > 120 — with no normalization or cap, the
factors appended in table order and the ETA rule contributing score only;
in particular weather (wind 30, precipitation 1.0) with speed 900 km/h,
altitude 35000 ft and ETA at most 120 min scores 70 with exactly the wind
and precipitation factors. -/
theorem risco_score_aditivo (clima : Clima) (v a : ℚ) (m : ℤ) :
    (risco_score clima v a m).1 =
      (if clima.wind_speed_10m > 25 then 30 else 0)
      + (if clima.precipitation > 1/2 then 40 else 0)
      + (if v < 600 ∧ a > 20000 then 20 else 0)
      + (if m > 120 then 10 else 0)
    ∧ (risco_score clima v a m).2 =
      (if clima.wind_speed_10m > 25 then [Fator.ventoCruzado clima.wind_speed_10m] else [])
      ++ (if clima.precipitation > 1/2 then [Fator.chuvaNaPista clima.precipitation] else [])
      ++ (if v < 600 ∧ a > 20000 then [Fator.velocidadeCruzeiroBaixa] else [])
    ∧ (m ≤ 120 → risco_score ⟨25, 1, 30⟩ 900 35000 m =
        (70, [Fator.ventoCruzado 30, Fator.chuvaNaPista 1])) := by
  refine ⟨?_, ?_, ?_⟩
  · simp only [risco_score]
    split_ifs <;> ring
  · simp only [risco_score]
    split_ifs <;> simp
  · intro hm
    have hm' : ¬ (m > 120) := by omega
    simp only [risco_score]
    norm_num [hm']

/-- Witness for `risco_score_aditivo` at ETA 0 minutes. -/
theorem risco_score_aditivo_test :
    risco_score ⟨25, 1, 30⟩ 900 35000 0 =
      (70, [Fator.ventoCruzado 30, Fator.chuvaNaPista 1]) :=
  (risco_score_aditivo ⟨25, 1, 30⟩ 900 35000 0).2.2 (by norm_num)

/-- C8: the category boundary at 20 is exclusive — weather (wind 10,
precipitation 0) with speed 300 km/h and altitude 25000 ft fires only the
slow-cruise rule, scores exactly 20, and the displayed category is the
nominal one (`NOMINAL`), not the moderate one (`ATENÇÃO`), because the
moderate branch requires score > 20. -/
theorem fronteira_nominal (t : ℚ) (m : ℤ) (hm : m ≤ 120) :
    (risco_score ⟨t, 0, 10⟩ 300 25000 m).1 = 20
    ∧ (risco_score ⟨t, 0, 10⟩ 300 25000 m).2 = [Fator.velocidadeCruzeiroBaixa]
    ∧ statusRisco (risco_score ⟨t, 0, 10⟩ 300 25000 m).1 = "NOMINAL"
    ∧ statusRisco (risco_score ⟨t, 0, 10⟩ 300 25000 m).1 ≠ "ATENÇÃO" := by
  have hm' : ¬ (m > 120) := by omega
  have h : risco_score ⟨t, 0, 10⟩ 300 25000 m = (20, [Fator.velocidadeCruzeiroBaixa]) := by
    simp only [risco_score]
    norm_num [hm']
  rw [h]
  refine ⟨rfl, rfl, rfl, by simp [statusRisco]⟩

/-- Witness for `fronteira_nominal` at temperature 25 and ETA 0. -/
theorem fronteira_nominal_test :
    (risco_score ⟨25, 0, 10⟩ 300 25000 0).1 = 20
    ∧ statusRisco (risco_score ⟨25, 0, 10⟩ 300 25000 0).1 = "NOMINAL" :=
  ⟨(fronteira_nominal 25 0 (by norm_num)).1,
   (fronteira_nominal 25 0 (by norm_num)).2.2.1⟩

/-- C10: the weather fallback snapshot is benign — its wind (10 km/h) and
precipitation (0 mm) are below the 25 and 0.5 thresholds, so under fallback
weather neither the wind nor the rain rule fires and the score depends only
on the slow-cruise and ETA rules. -/
theorem clima_fallback_benigno (v a : ℚ) (m : ℤ) :
    clima_fallback.wind_speed_10m ≤ 25
    ∧ clima_fallback.precipitation ≤ 1/2
    ∧ risco_score clima_fallback v a m =
      ((if v < 600 ∧ a > 20000 then 20 else 0) + (if m > 120 then 10 else 0),
       if v < 600 ∧ a > 20000 then [Fator.velocidadeCruzeiroBaixa] else []) := by
  refine ⟨by norm_num [clima_fallback], by norm_num [clima_fallback], ?_⟩
  have h1 : ¬ (clima_fallback.wind_speed_10m > 25) := by norm_num [clima_fallback]
  have h2 : ¬ (clima_fallback.precipitation > 1/2) := by norm_num [clima_fallback]
  simp only [risco_score, if_neg h1, if_neg h2]
  split_ifs <;> norm_num

/-- C5: with `speedKmh = groundSpeed * 3.6`, the ETA is
`distanceKm / speedKmh * 60` truncated to an integer when the speed is
positive, is the sentinel 999 when the speed is zero, and is never negative
(the geodesic distance being non-negative); the function is total, so no
division by zero and no exception. -/
theorem minutos_restantes_seguro (dist vel : ℚ) (hd : 0 ≤ dist) :
    (vel_kmh vel > 0 →
      minutos_restantes dist (vel_kmh vel) = pyInt (dist / vel_kmh vel * 60))
    ∧ (vel_kmh vel = 0 → minutos_restantes dist (vel_kmh vel) = 999)
    ∧ 0 ≤ minutos_restantes dist (vel_kmh vel) := by
  refine ⟨fun h => by simp [minutos_restantes, h], fun h => by simp [minutos_restantes, h], ?_⟩
  by_cases h : vel_kmh vel > 0
  · have hq : 0 ≤ dist / vel_kmh vel * 60 := by positivity
    simp only [minutos_restantes, if_pos h, pyInt]
    exact Int.tdiv_nonneg (Rat.num_nonneg.mpr hq) (by positivity)
  · simp [minutos_restantes, h]

/-- Witness for `minutos_restantes_seguro`: 111 km at 250 m/s (900 km/h). -/
theorem minutos_restantes_seguro_test :
    minutos_restantes 111 (vel_kmh 250) = pyInt (111 / vel_kmh 250 * 60)
    ∧ minutos_restantes 0 (vel_kmh 0) = 999
    ∧ 0 ≤ minutos_restantes 111 (vel_kmh 250) :=
  ⟨(minutos_restantes_seguro 111 250 (by norm_num)).1 (by norm_num [vel_kmh]),
   (minutos_restantes_seguro 0 0 (by norm_num)).2.1 (by norm_num [vel_kmh]),
   (minutos_restantes_seguro 111 250 (by norm_num)).2.2⟩

/-! ### Helper lemmas on the acquisition pipeline -/

theorem limpaFiltra_ok (sts : List RawState) (rows : List Row)
    (h : limpaFiltra sts = .ok rows) :
    rows = ((sts.map toRow).filter passaFiltro).filter
      (fun r => r.latitude.isSome && r.longitude.isSome) := by
  simp only [limpaFiltra] at h
  split at h
  · simp at h
  · simp only [Except.ok.injEq] at h
    exact h.symm

theorem tryLive_states (sts : List RawState) :
    tryLive (.httpResp 200 (.states (some sts))) =
      match limpaFiltra sts with
      | .error _ => none
      | .ok rows => if rows.isEmpty then none else some rows := rfl

theorem tryLive_some (r : FetchResp) (rows : List Row)
    (h : tryLive r = some rows) :
    rows ≠ [] ∧ ∀ row ∈ rows, passaFiltro row = true
      ∧ row.latitude.isSome ∧ row.longitude.isSome := by
  cases r with
  | netFail => simp [tryLive] at h
  | httpResp status body =>
    by_cases hs : status = 200
    · subst hs
      cases body with
      | malformed => simp [tryLive] at h
      | noStatesKey => simp [tryLive] at h
      | states s =>
        cases s with
        | none => simp [tryLive] at h
        | some sts =>
          rw [tryLive_states] at h
          split at h
          · simp at h
          · next rs hl =>
            split at h
            · simp at h
            · next he =>
              injection h with h
              subst h
              constructor
              · intro hnil; subst hnil; simp at he
              · intro row hrow
                rw [limpaFiltra_ok sts rs hl] at hrow
                have h2 := List.mem_filter.mp hrow
                have h1 := List.mem_filter.mp h2.1
                have h3 := h2.2
                simp only [Bool.and_eq_true] at h3
                exact ⟨h1.2, h3.1, h3.2⟩
    · simp [tryLive, hs] at h

theorem jgt_eq_true {v : JVal} {c : ℚ} (h : v.jgt c = true) :
    ∃ q, v = .jnum q ∧ c < q := by
  cases v with
  | jnull => simp [JVal.jgt] at h
  | jnum q => exact ⟨q, rfl, by simpa [JVal.jgt] using h⟩
  | jstr s => simp [JVal.jgt] at h

theorem mem_dados_fake (draws : ℕ → FakeDraw) (row : Row)
    (h : row ∈ dados_fake draws) :
    ∃ i, row =
      { callsign := .jstr ("GLO" ++ toString (draws i).flightNum)
        origin_country := .jstr "Brazil"
        longitude := some (-233/5 + (draws i).lonOff)
        latitude := some (-47/2 + (draws i).latOff)
        baro_altitude := .jnum (draws i).alt
        velocity := .jnum (draws i).vel } := by
  simp only [dados_fake, List.mem_map] at h
  obtain ⟨i, _, hi⟩ := h
  exact ⟨i, hi.symm⟩

/-! ### Acquisition-layer claims -/

/-- C6: the fetch never propagates an exception — transport failure, a
non-200 status (e.g. rate limit), or a malformed payload all return the
simulated data flagged `false`, and in general every call returns either a
non-empty live result flagged `true` or the simulated fallback flagged
`false`. -/
theorem get_live_flights_nunca_lanca (resp : FetchResp) (draws : ℕ → FakeDraw)
    (status : ℕ) (body : JsonBody) (hs : status ≠ 200) :
    ((∃ rows, rows ≠ [] ∧ get_live_flights resp draws = (rows, true))
      ∨ get_live_flights resp draws = (dados_fake draws, false))
    ∧ get_live_flights .netFail draws = (dados_fake draws, false)
    ∧ get_live_flights (.httpResp status body) draws = (dados_fake draws, false)
    ∧ get_live_flights (.httpResp 200 .malformed) draws = (dados_fake draws, false) := by
  refine ⟨?_, rfl, ?_, rfl⟩
  · cases ht : tryLive resp with
    | some rows =>
      exact .inl ⟨rows, (tryLive_some resp rows ht).1, by simp [get_live_flights, ht]⟩
    | none => exact .inr (by simp [get_live_flights, ht])
  · simp [get_live_flights, tryLive, hs]

/-- Witness for `get_live_flights_nunca_lanca` at a 429 rate-limit status. -/
theorem get_live_flights_nunca_lanca_test :
    get_live_flights .netFail draws0 = (dados_fake draws0, false)
    ∧ get_live_flights (.httpResp 429 .malformed) draws0 = (dados_fake draws0, false) :=
  ⟨(get_live_flights_nunca_lanca .netFail draws0 429 .malformed (by norm_num)).2.1,
   (get_live_flights_nunca_lanca .netFail draws0 429 .malformed (by norm_num)).2.2.1⟩

/-- C9: the acquisition call always returns a non-empty collection: the live
branch returns only a non-empty filtered frame, and the fallback generates
exactly 20 synthetic records. -/
theorem get_live_flights_nao_vazio (resp : FetchResp) (draws : ℕ → FakeDraw) :
    (get_live_flights resp draws).1 ≠ []
    ∧ ((get_live_flights resp draws).2 = false →
        (get_live_flights resp draws).1.length = 20) := by
  have h20 : (dados_fake draws).length = 20 := by simp [dados_fake]
  cases ht : tryLive resp with
  | some rows =>
    have := (tryLive_some resp rows ht).1
    simp [get_live_flights, ht, this]
  | none =>
    refine ⟨?_, fun _ => by simp [get_live_flights, ht, h20]⟩
    simp only [get_live_flights, ht]
    intro hnil
    rw [hnil] at h20
    simp at h20

/-- Witness for `get_live_flights_nao_vazio` on a transport failure. -/
theorem get_live_flights_nao_vazio_test :
    (get_live_flights .netFail draws0).1 ≠ []
    ∧ (get_live_flights .netFail draws0).1.length = 20 :=
  ⟨(get_live_flights_nao_vazio .netFail draws0).1,
   (get_live_flights_nao_vazio .netFail draws0).2 rfl⟩

/-- C4 counterexample: the claimed invariant "every returned Observation has
a non-empty callsign" is false — a record whose callsign is whitespace-only
survives cleaning and filtering, and the live result contains a row whose
callsign is the empty string. -/
theorem invariante_callsign_refutado :
    get_live_flights (.httpResp 200 (.states (some [reg_sem_id]))) draws0 =
      ([{ callsign := .jstr "", origin_country := .jstr "Brazil",
          longitude := some (-46), latitude := some (-23),
          baro_altitude := .jnum 10000, velocity := .jnum 250 }], true) := by
  decide

/-- C4 amended: every row returned by the acquisition call (live or
simulated) has non-null latitude and longitude and a positive numeric
altitude; the non-empty-callsign part of the claimed invariant is not
enforced on the live path. -/
theorem invariante_observacao (resp : FetchResp) (draws : ℕ → FakeDraw)
    (row : Row) (hm : row ∈ (get_live_flights resp draws).1) :
    row.latitude.isSome ∧ row.longitude.isSome
    ∧ ∃ q, row.baro_altitude = .jnum q ∧ 0 < q := by
  unfold get_live_flights at hm
  cases ht : tryLive resp with
  | some rows =>
    rw [ht] at hm
    have h := (tryLive_some resp rows ht).2 row hm
    obtain ⟨q, hq, hq2⟩ := jgt_eq_true (Bool.and_eq_true _ _ ▸ h.1 : _).1
    exact ⟨h.2.1, h.2.2, q, hq, by linarith⟩
  | none =>
    rw [ht] at hm
    obtain ⟨i, hi⟩ := mem_dados_fake draws row hm
    subst hi
    refine ⟨rfl, rfl, (draws i).alt, rfl, ?_⟩
    have := (draws i).alt_mem.1
    linarith

/-- Witness for `invariante_observacao`: the first simulated row of a
transport-failure call. -/
theorem invariante_observacao_test :
    linha0.latitude.isSome ∧ linha0.longitude.isSome
    ∧ ∃ q, linha0.baro_altitude = .jnum q ∧ 0 < q :=
  invariante_observacao .netFail draws0 linha0
    (List.mem_map.mpr ⟨0, List.mem_range.mpr (by norm_num), rfl⟩)

/-- C2 counterexample: an HTTP-200 response whose `states` field is null is
NOT returned as a (possibly empty) live result — `data['states'] is None`
raises, the exception is swallowed, and the call returns the simulated
fallback flagged `false`. -/
theorem estados_nulos_nao_live :
    get_live_flights (.httpResp 200 (.states none)) draws0 =
      (dados_fake draws0, false)
    ∧ (get_live_flights (.httpResp 200 (.states none)) draws0).2 ≠ true := by
  exact ⟨rfl, by simp [get_live_flights, tryLive]⟩

/-- C2 amended: a null `states` array, and equally an HTTP-success response
whose records all fail the filters, trigger the simulated fallback; the
result is flagged live only when the post-filter collection is non-empty. -/
theorem fallback_sem_dados (draws : ℕ → FakeDraw) (sts : List RawState)
    (rows : List Row) (hok : limpaFiltra sts = .ok rows) :
    get_live_flights (.httpResp 200 (.states none)) draws =
      (dados_fake draws, false)
    ∧ (rows = [] →
        get_live_flights (.httpResp 200 (.states (some sts))) draws =
          (dados_fake draws, false))
    ∧ (rows ≠ [] →
        get_live_flights (.httpResp 200 (.states (some sts))) draws =
          (rows, true)) := by
  refine ⟨rfl, ?_, ?_⟩
  · intro h
    subst h
    simp [get_live_flights, tryLive_states, hok]
  · intro h
    have he : rows.isEmpty = false := by
      cases rows with
      | nil => exact absurd rfl h
      | cons a t => rfl
    simp [get_live_flights, tryLive_states, hok, he]

/-- Witness for `fallback_sem_dados` on the empty state array. -/
theorem fallback_sem_dados_test :
    get_live_flights (.httpResp 200 (.states none)) draws0 =
      (dados_fake draws0, false)
    ∧ get_live_flights (.httpResp 200 (.states (some []))) draws0 =
      (dados_fake draws0, false) :=
  ⟨(fallback_sem_dados draws0 [] [] rfl).1,
   (fallback_sem_dados draws0 [] [] rfl).2.1 rfl⟩

/-- C3 counterexample: a record whose `velocity` field is the string
`"N/A"` is NOT coerced to 0.0 and kept — the column comparison raises
inside the `try`, the exception is swallowed, and the whole fetch degrades
to the simulated fallback instead of returning the normalized record. -/
theorem texto_nao_coagido :
    get_live_flights (.httpResp 200 (.states (some [reg_vel_texto]))) draws0 =
      (dados_fake draws0, false) := by
  have herr : limpaFiltra [reg_vel_texto] = .error () := rfl
  simp [get_live_flights, tryLive_states, herr]

/-- C3 amended: no exception reaches the caller, but there is no per-field
coercion to 0.0 — any record with a string-valued speed or altitude makes
the whole live parse fail and the fetch returns the simulated fallback,
while a null speed or altitude makes that record (NaN) fail the numeric
filters and be dropped without aborting the fetch. -/
theorem coercao_inexistente (draws : ℕ → FakeDraw) (sts : List RawState)
    (h : ∃ r ∈ sts, (r.velocity.isStr || r.baro_altitude.isStr) = true) :
    get_live_flights (.httpResp 200 (.states (some sts))) draws =
      (dados_fake draws, false)
    ∧ (∀ r : RawState, r.velocity = .jnull → passaFiltro (toRow r) = false)
    ∧ (∀ r : RawState, r.baro_altitude = .jnull → passaFiltro (toRow r) = false) := by
  refine ⟨?_, ?_, ?_⟩
  · obtain ⟨r, hr, hstr⟩ := h
    have herr : limpaFiltra sts = .error () := by
      simp only [limpaFiltra]
      rw [if_pos]
      refine List.any_eq_true.mpr ⟨toRow r, List.mem_map.mpr ⟨r, hr, rfl⟩, ?_⟩
      simpa [toRow, Bool.or_comm] using hstr
    simp [get_live_flights, tryLive_states, herr]
  · intro r hr
    simp [passaFiltro, toRow, hr, JVal.jgt]
  · intro r hr
    simp [passaFiltro, toRow, hr, JVal.jgt]

/-- Witness for `coercao_inexistente` on a singleton string-speed record. -/
theorem coercao_inexistente_test :
    get_live_flights (.httpResp 200 (.states (some [reg_vel_texto]))) draws0 =
      (dados_fake draws0, false)
    ∧ passaFiltro (toRow reg_vel_nula) = false :=
  ⟨(coercao_inexistente draws0 [reg_vel_texto]
      ⟨reg_vel_texto, by norm_num, by decide⟩).1,
   (coercao_inexistente draws0 [reg_vel_texto]
      ⟨reg_vel_texto, by norm_num, by decide⟩).2.1 reg_vel_nula rfl⟩

/-- C7 counterexample: `get_weather` never inspects the HTTP status, so a
non-2xx response whose JSON body still carries a `current` object is
returned as-is, not replaced by the documented fallback snapshot. -/
theorem status_nao_inspecionado :
    get_weather (.ok 500 (.current ⟨0, 9, 99⟩)) = ⟨0, 9, 99⟩
    ∧ get_weather (.ok 500 (.current ⟨0, 9, 99⟩)) ≠ clima_fallback := by
  refine ⟨rfl, ?_⟩
  intro h
  simp [get_weather, clima_fallback, Clima.mk.injEq] at h

/-- C7 amended: the weather lookup is total and returns the fixed fallback
snapshot on transport failure, an unparseable body, or a missing `current`
field; when a `current` object is present it is returned unchanged,
whatever the status code. -/
theorem get_weather_total (s : ℕ) (c : Clima) :
    get_weather .fail = clima_fallback
    ∧ get_weather (.ok s .malformed) = clima_fallback
    ∧ get_weather (.ok s .noCurrent) = clima_fallback
    ∧ get_weather (.ok s (.current c)) = c :=
  ⟨rfl, rfl, rfl, rfl⟩
